import Mathlib

set_option maxRecDepth 8000

/-!
Verification of the motor-controller firmware
(src/Motor_Controller_Byte_Version_With_Limits_Reset_Button_Remote.ino).

The sketch's globals become a `State` record; `loop` becomes a pure
function from the start-of-cycle state, the available serial bytes and the
two analog joystick readings to the end-of-cycle state, the bytes written
to the serial port and the pulse bursts issued.  The `pulse` routine is
modelled at the level of individual HIGH/LOW transitions, with the
asynchronous clearing of `keeppulsing` by the interrupt represented as an
oracle giving the flag's value read at each loop iteration.  The `limit`
interrupt handler is modelled as a state transformer over a finite list of
successive `digitalRead(limitpin)` results (the debounce re-check followed
by the readings of the walk-off loop).
-/

namespace Motor

/-- Pin numbers, from the `const int` pin definitions. -/
def xpulpluspin : Nat := 4

def ypulpluspin : Nat := 5

def zpulpluspin : Nat := 6

def dirpluspin : Nat := 7

/-- `const char startbyte = 0x07`. -/
def startbyte : Nat := 0x07

/-- `const char endbyte = 0x0A`. -/
def endbyte : Nat := 0x0A

/-- The sketch's global mutable variables, plus the level currently driven
on the shared direction output (`dirpluspin`); `true` models HIGH. -/
structure State where
  posorneg : Nat
  xyorz : Nat
  keeppulsing : Bool
  limithit : Bool
  gotcommand : Bool
  remoteinuse : Bool
  remoteinuselast : Bool
  remoteused : Bool
  checkremoteused : Bool
  dirpin : Bool
  deriving DecidableEq, Repr

/-- Global state right after `setup()`: C++ zero-initialises `posorneg` and
`xyorz`, the explicit initialisers set the flags, outputs start LOW. -/
def initState : State :=
  { posorneg := 0, xyorz := 0, keeppulsing := true, limithit := false,
    gotcommand := false, remoteinuse := false, remoteinuselast := false,
    remoteused := false, checkremoteused := false, dirpin := false }

/-- One transition on a digital output: `(pin, level)`, `true` = HIGH. -/
abbrev Transition := Nat × Bool

/-- The body of `pulse`'s while loop: at iteration `i` (with `rem`
iterations of quota left) the loop re-reads `keeppulsing` — modelled by the
oracle `flag i` — and either emits a HIGH/LOW pair on `pin` and continues,
or exits early. -/
def pulseIter (pin : Nat) (flag : Nat → Bool) : Nat → Nat → List Transition
  | _, 0 => []
  | i, rem + 1 =>
    if flag i then (pin, true) :: (pin, false) :: pulseIter pin flag (i + 1) rem
    else []

/-- `pulse(pulses, pin)`: the transitions emitted on `pin`, and the value of
`keeppulsing` when the call returns (the routine unconditionally restores
it to `true` before returning). -/
def pulse (pulses : Nat) (pin : Nat) (flag : Nat → Bool) : List Transition × Bool :=
  (pulseIter pin flag 0 pulses, true)

/-- The step output selected by `xyorz` in the if/else chains
(`0 → x`, `1 → y`, `2 → z`, anything else → no output). -/
def axisPin : Nat → Option Nat
  | 0 => some xpulpluspin
  | 1 => some ypulpluspin
  | 2 => some zpulpluspin
  | _ => none

/-- `directionpositive()` writes LOW, `directionnegative()` writes HIGH:
the level the command-execution branch drives on `dirpluspin` for a given
`posorneg` (values other than 0/1 leave the output unchanged). -/
def cmdDirLevel (p : Nat) (old : Bool) : Bool :=
  if p = 0 then false else if p = 1 then true else old

/-- The direction level the `limit` handler drives: the reversal branch
calls `directionnegative()` when `posorneg == 0` and `directionpositive()`
when `posorneg == 1`, otherwise leaves the output unchanged. -/
def limitDirLevel (p : Nat) (old : Bool) : Bool :=
  if p = 0 then true else if p = 1 then false else old

/-- The walk-off loop of the `limit` handler:
`while(digitalRead(limitpin) != LOW)` pulse once on the active axis.
Each successive `digitalRead` result is taken from `readings`; `none`
means the readings were exhausted while the input was still asserted
(the loop would still be running). -/
def walkOff : State → List Bool → Option (State × List Transition)
  | _, [] => none
  | st, r :: rs =>
    if r then
      match axisPin st.xyorz with
      | some pin =>
        let res := pulse 1 pin (fun _ => st.keeppulsing)
        match walkOff { st with keeppulsing := res.2 } rs with
        | some (st2, evs2) => some (st2, res.1 ++ evs2)
        | none => none
      | none => walkOff st rs
    else some (st, [])

/-- The `limit` interrupt handler.  `debounce` is the `digitalRead` after
the 250 ms delay; `readings` are the successive reads of the walk-off
loop.  After walking off it sets `keeppulsing := false` and
`limithit := true`. -/
def limit (st : State) (debounce : Bool) (readings : List Bool) :
    Option (State × List Transition) :=
  if debounce then
    if st.gotcommand then
      let st1 := { st with dirpin := limitDirLevel st.posorneg st.dirpin }
      match walkOff st1 readings with
      | some (st2, evs) =>
        some ({ st2 with keeppulsing := false, limithit := true }, evs)
      | none => none
    else some (st, [])
  else some (st, [])

/-- `Serial.readBytes(command, 7)` into the zero-initialised
`byte command[7]`: the first 7 available bytes, the rest of the array left
at 0 if fewer were available. -/
def padTo7 (l : List Nat) : List Nat :=
  l.take 7 ++ List.replicate (7 - l.length) 0

/-- `(command[0] & 0b00100000) >> 5`, the commanded direction bit. -/
def decodeDir (c0 : Nat) : Nat := (c0 &&& 32) >>> 5

/-- `(command[0] & 0b11000000) >> 6`, the commanded axis. -/
def decodeAxis (c0 : Nat) : Nat := (c0 &&& 192) >>> 6

/-- `command[1] == 0b11111111`, the go-to-limit flag. -/
def decodeGotolimit (c1 : Nat) : Bool := c1 == 255

/-- `(command[0] & 0b00000001) == 0b00000001`, the remote-used-query flag. -/
def decodeQueryFlag (c0 : Nat) : Bool := (c0 &&& 1) == 1

/-- `command[5] + (command[4]<<8) + (command[3]<<16) + (command[2]<<24)`
as a 32-bit `unsigned long`: the big-endian pulse count. -/
def decodePulses (c : List Nat) : Nat :=
  (c.getD 5 0 + (c.getD 4 0 <<< 8) + (c.getD 3 0 <<< 16) + (c.getD 2 0 <<< 24)) % 2 ^ 32

/-- The command-reception section of `loop`: if a byte is available and
neither `gotcommand` nor `checkremoteused` is set, read one byte, compare
with `startbyte`, read 7 more as `command`, check `command[6]` against
`endbyte`, then set `checkremoteused` or `gotcommand` from `command[0]`'s
low bit.  Returns the new state and the `command` array. -/
def decodePhase (st : State) (input : List Nat) : State × List Nat :=
  match input with
  | [] => (st, List.replicate 7 0)
  | b :: rest =>
    if !st.gotcommand && !st.checkremoteused then
      if b = startbyte then
        let command := padTo7 rest
        if command.getD 6 0 = endbyte then
          if decodeQueryFlag (command.getD 0 0) then
            ({ st with checkremoteused := true }, command)
          else
            ({ st with gotcommand := true }, command)
        else (st, command)
      else (st, List.replicate 7 0)
    else (st, List.replicate 7 0)

/-- The remote-used-query section of `loop`: when `checkremoteused` is set,
send `[startbyte, 0, used, endbyte]` with `used`'s low bit reporting
`remoteused`, then clear `remoteused` and `checkremoteused`. -/
def queryPhase (st : State) : State × List Nat :=
  if st.checkremoteused then
    ({ st with remoteused := false, checkremoteused := false },
     [startbyte, 0, if st.remoteused then 1 else 0, endbyte])
  else (st, [])

/-- The 4-byte command response: success `0b11110000` by default, replaced
by `0b00001111` when `limithit && !gotolimit`. -/
def responseFrame (limithit gotolimit : Bool) : List Nat :=
  [startbyte, if limithit && !gotolimit then 0x0F else 0xF0, 0, endbyte]

/-- One invocation of `pulse` from the control loop: the count and pin it
was called with and the value `gotcommand` held at the moment of the call. -/
structure PulseCall where
  count : Nat
  pin : Nat
  gotcommandAt : Bool
  deriving DecidableEq, Repr

/-- The command-execution branch of `loop` (`if(gotcommand){...}`): set the
direction output from `command[0]`, read the go-to-limit flag and the pulse
count (overridden to `0b11111111111111111111111111111111` when go-to-limit),
pulse the axis selected by `command[0]`, then send the response.  In this
interrupt-free model `keeppulsing` is never cleared externally, so the
oracle passed to `pulse` is the constant current flag value. -/
def commandPhase (st : State) (command : List Nat) :
    State × List Nat × List PulseCall :=
  let p := decodeDir (command.getD 0 0)
  let st1 := { st with posorneg := p, dirpin := cmdDirLevel p st.dirpin }
  let g := decodeGotolimit (command.getD 1 0)
  let pulses := if g then 2 ^ 32 - 1 else decodePulses command
  let a := decodeAxis (command.getD 0 0)
  let st2 := { st1 with xyorz := a }
  match axisPin a with
  | some pin =>
    let res := pulse pulses pin (fun _ => st2.keeppulsing)
    let st3 := { st2 with keeppulsing := res.2 }
    (st3, responseFrame st3.limithit g, [⟨pulses, pin, st3.gotcommand⟩])
  | none => (st2, responseFrame st2.limithit g, [])

/-- The joystick decision chain: left-right above `700 + 200` → negative X
move; left-right below `700 - 400` → positive X move; up-down above
`700 + 200` → positive Y move; up-down below `700 - 300` → negative Y move;
otherwise no move.  A move carries the direction level written to
`dirpluspin`, the new `posorneg`, the new `xyorz` and the pulsed pin. -/
def joystickMove (lrvalue udvalue : Int) : Option (Bool × Nat × Nat × Nat) :=
  if lrvalue - 700 > 200 then some (true, 1, 0, xpulpluspin)
  else if lrvalue - 700 < -400 then some (false, 0, 0, xpulpluspin)
  else if udvalue - 700 > 200 then some (false, 0, 1, ypulpluspin)
  else if udvalue - 700 < -300 then some (true, 1, 1, ypulpluspin)
  else none

/-- The joystick branch of `loop` (the `else` of `if(gotcommand)`): sets
`gotcommand := true`, reads the two channels, performs at most one
single-pulse move, records `remoteused` when a move happened, then saves
`remoteinuse` into `remoteinuselast` and clears `remoteinuse`. -/
def joystickPhase (st0 : State) (lrvalue udvalue : Int) :
    State × List PulseCall :=
  let st := { st0 with gotcommand := true }
  let stepA :=
    match joystickMove lrvalue udvalue with
    | some m =>
      let res := pulse 1 m.2.2.2 (fun _ => st.keeppulsing)
      ({ st with dirpin := m.1, posorneg := m.2.1, xyorz := m.2.2.1,
                 keeppulsing := res.2, remoteinuse := true },
       [(⟨1, m.2.2.2, st.gotcommand⟩ : PulseCall)])
    | none => (st, ([] : List PulseCall))
  let st1 := stepA.1
  let st2 := if st1.remoteinuse then { st1 with remoteused := true } else st1
  ({ st2 with remoteinuselast := st2.remoteinuse, remoteinuse := false },
   stepA.2)

/-- Dispatch after the query section: the command branch when `gotcommand`,
the joystick branch otherwise. -/
def execPhase (st : State) (command : List Nat) (lrvalue udvalue : Int) :
    State × List Nat × List PulseCall :=
  if st.gotcommand then commandPhase st command
  else
    let j := joystickPhase st lrvalue udvalue
    (j.1, [], j.2)

/-- One full iteration of `loop` (interrupt-free): decode, service a
pending query, execute the command or poll the joystick, then reset
`limithit`, `gotcommand` and `checkremoteused`.  Returns the new state,
the bytes written to the serial port and the pulse bursts issued. -/
def loop (st0 : State) (input : List Nat) (lrvalue udvalue : Int) :
    State × List Nat × List PulseCall :=
  let d := decodePhase st0 input
  let q := queryPhase d.1
  let e := execPhase q.1 d.2 lrvalue udvalue
  ({ e.1 with limithit := false, gotcommand := false, checkremoteused := false },
   q.2 ++ e.2.1, e.2.2)

/-- Modelled from the spec: the host-side wire encoding of a command frame
`[START][ctrl][gotoLimit][p3][p2][p1][p0][END]` with `ctrl` bits 7-6 the
axis, bit 5 the direction (1 = negative) and bit 0 clear, `gotoLimit`
all-ones when enabled, and the count big-endian.  (The host encoder is not
in this repository; this definition follows the spec's bit layout and is
compared against the sketch's decoder.) -/
def encodeFrame (axis : Nat) (negDir : Bool) (gotolimit : Bool) (count : Nat) :
    List Nat :=
  [startbyte,
   (axis <<< 6) + (if negDir then 32 else 0),
   if gotolimit then 255 else 0,
   (count >>> 24) % 256, (count >>> 16) % 256, (count >>> 8) % 256, count % 256,
   endbyte]

lemma pulseIter_all_true (pin : Nat) (flag : Nat → Bool)
    (h : ∀ i, flag i = true) :
    ∀ (rem i : Nat), pulseIter pin flag i rem =
      (List.replicate rem [(pin, true), (pin, false)]).flatten := by
  intro rem
  induction rem with
  | zero => intro i; simp [pulseIter]
  | succ m ih => intro i; simp [pulseIter, h i, ih, List.replicate_succ]

lemma pulseIter_clipped (pin : Nat) (flag : Nat → Bool) :
    ∀ (m i rem : Nat), (∀ j, j < m → flag (i + j) = true) →
      flag (i + m) = false → m < rem →
      pulseIter pin flag i rem =
        (List.replicate m [(pin, true), (pin, false)]).flatten := by
  intro m
  induction m with
  | zero =>
    intro i rem _ hstop hm
    obtain ⟨r, rfl⟩ := Nat.exists_eq_add_of_lt hm
    simp only [Nat.add_zero] at hstop
    simp [pulseIter, hstop]
  | succ m' ih =>
    intro i rem hlt hstop hm
    obtain ⟨r, rfl⟩ := Nat.exists_eq_add_of_lt hm
    have h0 : flag i = true := by simpa using hlt 0 (Nat.succ_pos m')
    have hlt1 : ∀ j, j < m' → flag (i + 1 + j) = true := by
      intro j hj
      have := hlt (j + 1) (by omega)
      simpa [Nat.add_assoc, Nat.add_comm 1 j] using this
    have hstop1 : flag (i + 1 + m') = false := by
      have he : i + 1 + m' = i + (m' + 1) := by omega
      rw [he]; exact hstop
    have hrec := ih (i + 1) (m' + 1 + r) hlt1 hstop1 (by omega)
    simp [pulseIter, h0, hrec, List.replicate_succ]

/-- C3: `pulse(0, out)` emits no transitions; with the continuation flag
never cleared, `pulse(count, out)` emits exactly `count` HIGH/LOW pairs;
if the flag is cleared after `k < count` pairs, exactly `k` pairs are
emitted and the flag is `true` again when the call returns. -/
theorem pulse_pairs (count pin k : Nat) (flag : Nat → Bool) :
    (pulse 0 pin flag).1 = [] ∧
    ((∀ i, flag i = true) →
      (pulse count pin flag).1 =
        (List.replicate count [(pin, true), (pin, false)]).flatten) ∧
    ((∀ j, j < k → flag j = true) → flag k = false → k < count →
      (pulse count pin flag).1 =
        (List.replicate k [(pin, true), (pin, false)]).flatten ∧
      (pulse count pin flag).2 = true) := by
  refine ⟨rfl, ?_, ?_⟩
  · intro h
    simpa [pulse] using pulseIter_all_true pin flag h count 0
  · intro h1 h2 h3
    refine ⟨?_, rfl⟩
    simpa [pulse] using
      pulseIter_clipped pin flag k 0 count (by simpa using h1) (by simpa using h2) h3

theorem pulse_pairs_witness :
    (pulse 3 4 (fun _ => true)).1 =
      (List.replicate 3 [(4, true), (4, false)]).flatten ∧
    ((pulse 3 4 (fun i => decide (i < 1))).1 =
      (List.replicate 1 [(4, true), (4, false)]).flatten ∧
     (pulse 3 4 (fun i => decide (i < 1))).2 = true) :=
  ⟨(pulse_pairs 3 4 1 (fun _ => true)).2.1 (fun _ => rfl),
   (pulse_pairs 3 4 1 (fun i => decide (i < 1))).2.2
     (by decide) (by decide) (by decide)⟩

lemma walkOff_replicate (pin : Nat) :
    ∀ (n : Nat) (st : State), st.keeppulsing = true →
      axisPin st.xyorz = some pin →
      walkOff st (List.replicate n true ++ [false]) =
        some (st, (List.replicate n [(pin, true), (pin, false)]).flatten) := by
  intro n
  induction n with
  | zero => intro st hk ha; simp [walkOff]
  | succ m ih =>
    intro st hk ha
    have hst : { st with keeppulsing := true } = st := by
      cases st; simp_all
    simp [List.replicate_succ, walkOff, ha, pulse, pulseIter, hk, hst, ih st hk ha]

/-- C2: when the limit input is still asserted after the debounce re-check
and a command is executing, the `limit` handler drives the direction output
to the opposite of the level commanded for `posorneg`, emits one pulse pair
on the active axis per asserted reading until the input reads de-asserted,
sets `limithit`, clears `keeppulsing`, and the response built from the
resulting `limithit` reports `0x0F` unless go-to-limit was requested, in
which case `0xF0`. -/
theorem limit_reverses_and_walks_off (st : State) (n pin : Nat) (g : Bool)
    (hg : st.gotcommand = true) (hk : st.keeppulsing = true)
    (hp : st.posorneg < 2) (ha : axisPin st.xyorz = some pin) :
    ∃ st2 : State,
      limit st true (List.replicate n true ++ [false]) =
        some (st2, (List.replicate n [(pin, true), (pin, false)]).flatten) ∧
      st2.dirpin = !cmdDirLevel st.posorneg st.dirpin ∧
      st2.limithit = true ∧
      st2.keeppulsing = false ∧
      responseFrame st2.limithit g =
        [startbyte, if g then 0xF0 else 0x0F, 0, endbyte] := by
  refine ⟨{ st with
              dirpin := limitDirLevel st.posorneg st.dirpin,
              keeppulsing := false, limithit := true }, ?_, ?_, rfl, rfl, ?_⟩
  · have hw := walkOff_replicate pin n
      { st with dirpin := limitDirLevel st.posorneg st.dirpin }
      (by simpa using hk) (by simpa using ha)
    rw [hg] at hw
    simp [limit, hg, hw]
  · have h01 : st.posorneg = 0 ∨ st.posorneg = 1 := by omega
    rcases h01 with h | h <;> simp [h, limitDirLevel, cmdDirLevel]
  · cases g <;> rfl

theorem limit_reverses_and_walks_off_witness :
    ∃ st2 : State,
      limit { initState with gotcommand := true } true
          (List.replicate 2 true ++ [false]) =
        some (st2,
          (List.replicate 2 [(xpulpluspin, true), (xpulpluspin, false)]).flatten) ∧
      st2.dirpin =
        !cmdDirLevel { initState with gotcommand := true }.posorneg
          { initState with gotcommand := true }.dirpin ∧
      st2.limithit = true ∧
      st2.keeppulsing = false ∧
      responseFrame st2.limithit false =
        [startbyte, if false then 0xF0 else 0x0F, 0, endbyte] :=
  limit_reverses_and_walks_off { initState with gotcommand := true } 2
    xpulpluspin false rfl rfl (by decide) rfl

lemma decodePhase_frame (st : State) (c0 c1 b3 b2 b1 b0 : Nat)
    (hg : st.gotcommand = false) (hc : st.checkremoteused = false)
    (hq : decodeQueryFlag c0 = false) :
    decodePhase st [startbyte, c0, c1, b3, b2, b1, b0, endbyte] =
      ({ st with gotcommand := true }, [c0, c1, b3, b2, b1, b0, endbyte]) := by
  simp [decodePhase, padTo7, hg, hc, hq]

lemma loop_command (st : State) (c0 c1 b3 b2 b1 b0 : Nat) (lr ud : Int)
    (pin : Nat) (hg : st.gotcommand = false) (hc : st.checkremoteused = false)
    (hq : decodeQueryFlag c0 = false)
    (hpin : axisPin (decodeAxis c0) = some pin) :
    loop st [startbyte, c0, c1, b3, b2, b1, b0, endbyte] lr ud =
      ({ st with
           posorneg := decodeDir c0,
           dirpin := cmdDirLevel (decodeDir c0) st.dirpin,
           xyorz := decodeAxis c0,
           keeppulsing := true, limithit := false,
           gotcommand := false, checkremoteused := false },
       responseFrame st.limithit (decodeGotolimit c1),
       [⟨if decodeGotolimit c1 then 2 ^ 32 - 1
         else decodePulses [c0, c1, b3, b2, b1, b0, endbyte], pin, true⟩]) := by
  simp [loop, decodePhase_frame st c0 c1 b3 b2 b1 b0 hg hc hq, queryPhase, hc,
    execPhase, commandPhase, hpin, pulse]

lemma loop_command_noaxis (st : State) (c0 c1 b3 b2 b1 b0 : Nat) (lr ud : Int)
    (hg : st.gotcommand = false) (hc : st.checkremoteused = false)
    (hq : decodeQueryFlag c0 = false)
    (hpin : axisPin (decodeAxis c0) = none) :
    loop st [startbyte, c0, c1, b3, b2, b1, b0, endbyte] lr ud =
      ({ st with
           posorneg := decodeDir c0,
           dirpin := cmdDirLevel (decodeDir c0) st.dirpin,
           xyorz := decodeAxis c0,
           limithit := false, gotcommand := false, checkremoteused := false },
       responseFrame st.limithit (decodeGotolimit c1), []) := by
  simp [loop, decodePhase_frame st c0 c1 b3 b2 b1 b0 hg hc hq, queryPhase, hc,
    execPhase, commandPhase, hpin]

lemma encode_ctrl_bits (a : Nat) (d : Bool) (ha : a < 3) :
    decodeQueryFlag ((a <<< 6) + (if d then 32 else 0)) = false ∧
    decodeAxis ((a <<< 6) + (if d then 32 else 0)) = a ∧
    decodeDir ((a <<< 6) + (if d then 32 else 0)) = (if d then 1 else 0) := by
  interval_cases a <;> cases d <;> exact ⟨by decide, by decide, by decide⟩

lemma decodePulses_encode (c0 c1 n : Nat) (hn : n < 2 ^ 32) :
    decodePulses [c0, c1, (n >>> 24) % 256, (n >>> 16) % 256,
      (n >>> 8) % 256, n % 256, endbyte] = n := by
  have hrw : decodePulses [c0, c1, (n >>> 24) % 256, (n >>> 16) % 256,
      (n >>> 8) % 256, n % 256, endbyte] =
    ((n % 256) + (((n >>> 8) % 256) <<< 8) + (((n >>> 16) % 256) <<< 16) +
      (((n >>> 24) % 256) <<< 24)) % 2 ^ 32 := rfl
  rw [hrw]
  simp only [Nat.shiftLeft_eq, Nat.shiftRight_eq_div_pow]
  norm_num
  omega

/-- C1: a well-formed frame with `START`/`END` correct and the query bit
clear marks a command pending, and the decoded axis, direction bit,
go-to-limit flag and big-endian pulse count read back exactly the encoded
values; the executed command's `xyorz`/`posorneg` match as well. -/
theorem frame_roundtrip (a : Nat) (d g : Bool) (n : Nat)
    (ha : a < 3) (hn : n < 2 ^ 32) (lr ud : Int) :
    (decodePhase initState (encodeFrame a d g n)).1.gotcommand = true ∧
    decodeAxis ((encodeFrame a d g n).getD 1 0) = a ∧
    decodeDir ((encodeFrame a d g n).getD 1 0) = (if d then 1 else 0) ∧
    decodeGotolimit ((encodeFrame a d g n).getD 2 0) = g ∧
    decodePulses (decodePhase initState (encodeFrame a d g n)).2 = n ∧
    (loop initState (encodeFrame a d g n) lr ud).1.xyorz = a ∧
    (loop initState (encodeFrame a d g n) lr ud).1.posorneg =
      (if d then 1 else 0) := by
  obtain ⟨hq, hax, hdir⟩ := encode_ctrl_bits a d ha
  have hgl : decodeGotolimit (if g then 255 else 0) = g := by
    cases g <;> decide
  have hpin : axisPin (decodeAxis ((a <<< 6) + (if d then 32 else 0))) =
      some ((axisPin a).getD 0) := by
    rw [hax]; interval_cases a <;> rfl
  have hdec := decodePhase_frame initState ((a <<< 6) + (if d then 32 else 0))
    (if g then 255 else 0) ((n >>> 24) % 256) ((n >>> 16) % 256)
    ((n >>> 8) % 256) (n % 256) rfl rfl hq
  have hloop := loop_command initState ((a <<< 6) + (if d then 32 else 0))
    (if g then 255 else 0) ((n >>> 24) % 256) ((n >>> 16) % 256)
    ((n >>> 8) % 256) (n % 256) lr ud ((axisPin a).getD 0) rfl rfl hq hpin
  refine ⟨?_, ?_, ?_, ?_, ?_, ?_, ?_⟩
  · rw [encodeFrame, hdec]
  · simpa [encodeFrame] using hax
  · simpa [encodeFrame] using hdir
  · simpa [encodeFrame] using hgl
  · rw [encodeFrame, hdec]
    exact decodePulses_encode _ _ n hn
  · rw [encodeFrame, hloop]; exact hax
  · rw [encodeFrame, hloop]; exact hdir

theorem frame_roundtrip_witness :
    (decodePhase initState (encodeFrame 1 true false 16909060)).1.gotcommand
        = true ∧
    decodeAxis ((encodeFrame 1 true false 16909060).getD 1 0) = 1 ∧
    decodeDir ((encodeFrame 1 true false 16909060).getD 1 0) =
      (if true then 1 else 0) ∧
    decodeGotolimit ((encodeFrame 1 true false 16909060).getD 2 0) = false ∧
    decodePulses (decodePhase initState (encodeFrame 1 true false 16909060)).2
        = 16909060 ∧
    (loop initState (encodeFrame 1 true false 16909060) 700 700).1.xyorz = 1 ∧
    (loop initState (encodeFrame 1 true false 16909060) 700 700).1.posorneg =
      (if true then 1 else 0) :=
  frame_roundtrip 1 true false 16909060 (by decide) (by decide) 700 700

/-- C4: an accepted command frame whose go-to-limit byte is all-ones passes
the maximum 32-bit value as the pulse count, whatever the payload bytes
hold. -/
theorem gotolimit_max_pulses (c0 b3 b2 b1 b0 : Nat) (lr ud : Int)
    (hq : c0 &&& 1 = 0) (ha : decodeAxis c0 < 3) :
    ((loop initState [startbyte, c0, 255, b3, b2, b1, b0, endbyte] lr ud).2.2).map
        PulseCall.count = [2 ^ 32 - 1] := by
  have hq' : decodeQueryFlag c0 = false := by simp [decodeQueryFlag, hq]
  have h012 : decodeAxis c0 = 0 ∨ decodeAxis c0 = 1 ∨ decodeAxis c0 = 2 := by
    omega
  have hgl : decodeGotolimit 255 = true := rfl
  rcases h012 with h | h | h <;>
    rw [loop_command initState c0 255 b3 b2 b1 b0 lr ud _ rfl rfl hq'
        (by rw [h]; rfl)] <;>
    simp [hgl]

theorem gotolimit_max_pulses_witness :
    ((loop initState [startbyte, 0, 255, 1, 2, 3, 4, endbyte] 700 700).2.2).map
        PulseCall.count = [2 ^ 32 - 1] :=
  gotolimit_max_pulses 0 1 2 3 4 700 700 (by decide) (by decide)

/-- C5: a cycle whose first available byte is not `START`, or whose 7th
payload byte after a `START` is not `END`, leaves no command pending, no
remote-used query pending, and writes nothing to the serial port. -/
theorem malformed_frame_dropped (input : List Nat) (lr ud : Int)
    (h : input.headD 0 ≠ startbyte ∨ (padTo7 input.tail).getD 6 0 ≠ endbyte) :
    (decodePhase initState input).1.gotcommand = false ∧
    (decodePhase initState input).1.checkremoteused = false ∧
    (loop initState input lr ud).2.1 = [] := by
  have hd : (decodePhase initState input).1 = initState := by
    cases input with
    | nil => rfl
    | cons b rest =>
      by_cases hb : b = startbyte
      · subst hb
        have h6 : ¬((padTo7 rest)[6]?.getD 0 = endbyte) := by
          rcases h with h | h
          · simp at h
          · simpa [List.getD] using h
        simp [decodePhase, h6, initState]
      · simp [decodePhase, hb, initState]
  refine ⟨by rw [hd]; rfl, by rw [hd]; rfl, ?_⟩
  simp only [loop, execPhase]
  rw [hd]
  simp [queryPhase, initState]

theorem malformed_frame_dropped_witness :
    (decodePhase initState [5, 1, 2]).1.gotcommand = false ∧
    (decodePhase initState [5, 1, 2]).1.checkremoteused = false ∧
    (loop initState [5, 1, 2] 700 700).2.1 = [] :=
  malformed_frame_dropped [5, 1, 2] 700 700 (Or.inl (by decide))

/-- C6: left-right reading 1000 issues exactly one negative-direction X
pulse; 250 issues one positive-direction X pulse; both channels inside the
deadzone issue no move; at most one axis moves per cycle, and left-right
takes precedence when its threshold is exceeded. -/
theorem joystick_thresholds (st stp : State) (lr ud udA udB lrp udp : Int)
    (hlr1 : ¬ lr - 700 > 200) (hlr2 : ¬ lr - 700 < -400)
    (hud1 : ¬ ud - 700 > 200) (hud2 : ¬ ud - 700 < -300) :
    ((joystickPhase initState 1000 udA).2 = [⟨1, xpulpluspin, true⟩] ∧
     (joystickPhase initState 1000 udA).1.dirpin = true ∧
     (joystickPhase initState 1000 udA).1.posorneg = 1) ∧
    ((joystickPhase initState 250 udB).2 = [⟨1, xpulpluspin, true⟩] ∧
     (joystickPhase initState 250 udB).1.dirpin = false ∧
     (joystickPhase initState 250 udB).1.posorneg = 0) ∧
    (joystickPhase st lr ud).2 = [] ∧
    (joystickPhase stp lrp udp).2.length ≤ 1 ∧
    ((lrp - 700 > 200 ∨ lrp - 700 < -400) →
      ∀ c ∈ (joystickPhase stp lrp udp).2, c.pin = xpulpluspin) := by
  have hA : joystickMove 1000 udA = some (true, 1, 0, xpulpluspin) := by
    simp [joystickMove]
  have hB : joystickMove 250 udB = some (false, 0, 0, xpulpluspin) := by
    norm_num [joystickMove]
  have hdz : joystickMove lr ud = none := by
    simp [joystickMove, hlr1, hlr2, hud1, hud2]
  refine ⟨?_, ?_, ?_, ?_, ?_⟩
  · simp [joystickPhase, hA]
  · simp [joystickPhase, hB]
  · simp [joystickPhase, hdz]
  · simp only [joystickPhase]
    cases hj : joystickMove lrp udp <;> simp [hj]
  · intro hor c hc
    simp only [joystickPhase] at hc
    cases hj : joystickMove lrp udp with
    | none => rw [hj] at hc; simp at hc
    | some m =>
      rw [hj] at hc
      simp at hc
      have hx : m.2.2.2 = xpulpluspin := by
        unfold joystickMove at hj
        split_ifs at hj with h1 h2 h3 h4
        all_goals first
          | exact absurd hor (by omega)
          | (injection hj with hj2; rw [← hj2])
      simp [hc, hx]

theorem joystick_thresholds_witness :
    ((joystickPhase initState 1000 700).2 =
        [⟨1, xpulpluspin, true⟩] ∧
     (joystickPhase initState 1000 700).1.dirpin = true ∧
     (joystickPhase initState 1000 700).1.posorneg = 1) ∧
    ((joystickPhase initState 250 700).2 = [⟨1, xpulpluspin, true⟩] ∧
     (joystickPhase initState 250 700).1.dirpin = false ∧
     (joystickPhase initState 250 700).1.posorneg = 0) ∧
    (joystickPhase initState 700 700).2 = [] ∧
    (joystickPhase initState 1000 700).2.length ≤ 1 ∧
    (((1000 : Int) - 700 > 200 ∨ (1000 : Int) - 700 < -400) →
      ∀ c ∈ (joystickPhase initState 1000 700).2, c.pin = xpulpluspin) :=
  joystick_thresholds initState initState 700 700 700 700 1000 700
    (by decide) (by decide) (by decide) (by decide)

/-- C7: a remote-used query received while `remoteused` is set replies
`[START][0][1][END]` and clears the flag, so a second query with no
intervening joystick move replies `[START][0][0][END]`. -/
theorem remoteused_query_clears (lr ud lr2 ud2 : Int)
    (h1 : joystickMove lr ud = none) :
    (loop { initState with remoteused := true }
        [startbyte, 1, 0, 0, 0, 0, 0, endbyte] lr ud).2.1 =
      [startbyte, 0, 1, endbyte] ∧
    (loop (loop { initState with remoteused := true }
          [startbyte, 1, 0, 0, 0, 0, 0, endbyte] lr ud).1
        [startbyte, 1, 0, 0, 0, 0, 0, endbyte] lr2 ud2).2.1 =
      [startbyte, 0, 0, endbyte] := by
  have hqf : decodeQueryFlag 1 = true := rfl
  have hstep : (loop { initState with remoteused := true }
      [startbyte, 1, 0, 0, 0, 0, 0, endbyte] lr ud).1 = initState := by
    simp [loop, decodePhase, padTo7, hqf, queryPhase, execPhase,
      joystickPhase, h1, initState]
  refine ⟨?_, ?_⟩
  · simp [loop, decodePhase, padTo7, hqf, queryPhase, execPhase, initState]
  · rw [hstep]
    simp [loop, decodePhase, padTo7, hqf, queryPhase, execPhase, initState]

theorem remoteused_query_clears_witness :
    (loop { initState with remoteused := true }
        [startbyte, 1, 0, 0, 0, 0, 0, endbyte] 700 700).2.1 =
      [startbyte, 0, 1, endbyte] ∧
    (loop (loop { initState with remoteused := true }
          [startbyte, 1, 0, 0, 0, 0, 0, endbyte] 700 700).1
        [startbyte, 1, 0, 0, 0, 0, 0, endbyte] 700 700).2.1 =
      [startbyte, 0, 0, endbyte] :=
  remoteused_query_clears 700 700 700 700 (by decide)

lemma decodePhase_preserved (st : State) (input : List Nat) :
    (decodePhase st input).1.keeppulsing = st.keeppulsing ∧
    (decodePhase st input).1.remoteinuse = st.remoteinuse := by
  cases input with
  | nil => exact ⟨rfl, rfl⟩
  | cons b rest =>
    simp only [decodePhase]
    split_ifs <;> exact ⟨rfl, rfl⟩

lemma queryPhase_preserved (st : State) :
    (queryPhase st).1.keeppulsing = st.keeppulsing ∧
    (queryPhase st).1.remoteinuse = st.remoteinuse := by
  simp only [queryPhase]
  split_ifs <;> exact ⟨rfl, rfl⟩

lemma commandPhase_preserved (st : State) (cmd : List Nat)
    (hk : st.keeppulsing = true) :
    (commandPhase st cmd).1.keeppulsing = true ∧
    (commandPhase st cmd).1.remoteinuse = st.remoteinuse := by
  simp only [commandPhase]
  cases h : axisPin (decodeAxis (cmd.getD 0 0)) <;> simp [h, pulse, hk]

lemma joystickPhase_preserved (st : State) (lr ud : Int)
    (hk : st.keeppulsing = true) :
    (joystickPhase st lr ud).1.keeppulsing = true ∧
    (joystickPhase st lr ud).1.remoteinuse = false := by
  simp only [joystickPhase]
  cases h : joystickMove lr ud with
  | none => simp only [h]; split_ifs <;> simp [hk]
  | some m => simp [h, pulse, hk]

lemma execPhase_preserved (st : State) (cmd : List Nat) (lr ud : Int)
    (hk : st.keeppulsing = true) (hr : st.remoteinuse = false) :
    (execPhase st cmd lr ud).1.keeppulsing = true ∧
    (execPhase st cmd lr ud).1.remoteinuse = false := by
  simp only [execPhase]
  split_ifs with h
  · obtain ⟨h1, h2⟩ := commandPhase_preserved st cmd hk
    exact ⟨h1, by rw [h2, hr]⟩
  · exact joystickPhase_preserved st lr ud hk

/-- C8: whichever branch a cycle takes, the end-of-cycle state has
`gotcommand`, `checkremoteused`, `limithit` and `remoteinuse` cleared and
`keeppulsing` set, given they started the cycle at those defaults. -/
theorem cycle_resets_flags (st : State) (input : List Nat) (lr ud : Int)
    (hk : st.keeppulsing = true) (hr : st.remoteinuse = false) :
    (loop st input lr ud).1.gotcommand = false ∧
    (loop st input lr ud).1.checkremoteused = false ∧
    (loop st input lr ud).1.limithit = false ∧
    (loop st input lr ud).1.remoteinuse = false ∧
    (loop st input lr ud).1.keeppulsing = true := by
  obtain ⟨hdk, hdr⟩ := decodePhase_preserved st input
  obtain ⟨hqk, hqr⟩ := queryPhase_preserved (decodePhase st input).1
  have hk2 : (queryPhase (decodePhase st input).1).1.keeppulsing = true := by
    rw [hqk, hdk, hk]
  have hr2 : (queryPhase (decodePhase st input).1).1.remoteinuse = false := by
    rw [hqr, hdr, hr]
  obtain ⟨hek, her⟩ := execPhase_preserved (queryPhase (decodePhase st input).1).1
    (decodePhase st input).2 lr ud hk2 hr2
  exact ⟨rfl, rfl, rfl, her, hek⟩

theorem cycle_resets_flags_witness :
    initState.keeppulsing = true ∧ initState.remoteinuse = false ∧
    ((loop initState [startbyte, 0, 255, 0, 0, 0, 0, endbyte] 1000 700).1.gotcommand
        = false ∧
     (loop initState [startbyte, 0, 255, 0, 0, 0, 0, endbyte] 1000 700).1.checkremoteused
        = false ∧
     (loop initState [startbyte, 0, 255, 0, 0, 0, 0, endbyte] 1000 700).1.limithit
        = false ∧
     (loop initState [startbyte, 0, 255, 0, 0, 0, 0, endbyte] 1000 700).1.remoteinuse
        = false ∧
     (loop initState [startbyte, 0, 255, 0, 0, 0, 0, endbyte] 1000 700).1.keeppulsing
        = true) :=
  ⟨rfl, rfl,
   cycle_resets_flags initState [startbyte, 0, 255, 0, 0, 0, 0, endbyte]
     1000 700 rfl rfl⟩

lemma commandPhase_calls_gotcommand (st : State) (cmd : List Nat)
    (hg : st.gotcommand = true) :
    ∀ c ∈ (commandPhase st cmd).2.2, c.gotcommandAt = true := by
  intro c hc
  simp only [commandPhase] at hc
  cases h : axisPin (decodeAxis (cmd.getD 0 0)) <;> rw [h] at hc <;> simp at hc
  rw [hc]
  exact hg

lemma joystickPhase_calls_gotcommand (st : State) (lr ud : Int) :
    ∀ c ∈ (joystickPhase st lr ud).2, c.gotcommandAt = true := by
  intro c hc
  simp only [joystickPhase] at hc
  cases h : joystickMove lr ud <;> rw [h] at hc <;> simp at hc
  simp [hc]

/-- C9: every pulse burst issued during a cycle — by the command branch or
by the joystick branch, which sets `gotcommand := true` before pulsing —
is issued while `gotcommand` is true, so the `limit` handler's
`if (gotcommand)` guard is satisfied during joystick micro-moves as well. -/
theorem pulses_only_with_gotcommand (st : State) (input : List Nat)
    (lr ud : Int) (c : PulseCall)
    (hc : c ∈ (loop st input lr ud).2.2) :
    c.gotcommandAt = true := by
  simp only [loop, execPhase] at hc
  by_cases h : (queryPhase (decodePhase st input).1).1.gotcommand = true
  · rw [if_pos h] at hc
    exact commandPhase_calls_gotcommand _ _ h c hc
  · rw [if_neg h] at hc
    exact joystickPhase_calls_gotcommand _ lr ud c hc

theorem pulses_only_with_gotcommand_witness :
    (⟨1, 4, true⟩ : PulseCall) ∈ (loop initState [] 1000 700).2.2 ∧
    (⟨1, 4, true⟩ : PulseCall).gotcommandAt = true :=
  ⟨by decide,
   pulses_only_with_gotcommand initState [] 1000 700 ⟨1, 4, true⟩ (by decide)⟩

/-- C10: an accepted command frame whose axis bits are `11` pulses no axis
output at all, yet the response still reports success `0xF0`; the host
sees no error. -/
theorem invalid_axis_silent_success (c0 c1 b3 b2 b1 b0 : Nat) (lr ud : Int)
    (hq : c0 &&& 1 = 0) (ha : decodeAxis c0 = 3) :
    (loop initState [startbyte, c0, c1, b3, b2, b1, b0, endbyte] lr ud).2.2 =
      [] ∧
    (loop initState [startbyte, c0, c1, b3, b2, b1, b0, endbyte] lr ud).2.1 =
      [startbyte, 0xF0, 0, endbyte] := by
  have hq' : decodeQueryFlag c0 = false := by
    simp [decodeQueryFlag, hq]
  have hpin : axisPin (decodeAxis c0) = none := by rw [ha]; rfl
  rw [loop_command_noaxis initState c0 c1 b3 b2 b1 b0 lr ud rfl rfl hq' hpin]
  exact ⟨rfl, by simp [responseFrame, initState]⟩

theorem invalid_axis_silent_success_witness :
    (loop initState [startbyte, 192, 0, 1, 2, 3, 4, endbyte] 700 700).2.2 =
      [] ∧
    (loop initState [startbyte, 192, 0, 1, 2, 3, 4, endbyte] 700 700).2.1 =
      [startbyte, 0xF0, 0, endbyte] :=
  invalid_axis_silent_success 192 0 1 2 3 4 700 700 (by decide) (by decide)

end Motor
